import Mathlib

/-!
# ThreadX SMP port header `tx_port.h` (ARMv8-A-SMP, Cortex-A65, AC6)

A verification development over a shallow embedding of
`libs/threadx/ports_smp/cortex_a65_smp/ac6/inc/tx_port.h`.

The header consists of preprocessor directives and statement macros.  The
embedding has three layers:

* the statement macros (`TX_LOWEST_SET_BIT_CALCULATE`,
  `TX_THREAD_CREATE_TIMEOUT_SETUP`, `TX_THREAD_TIMEOUT_POINTER_SETUP`,
  `TX_DISABLE`, `TX_RESTORE`) as functions on explicit machine state;
* the directives of the header as a value of type `Block`, interpreted by
  `process` over a table of defined names;
* the protection primitive the header only names (`_tx_thread_smp_protect`,
  `_tx_thread_smp_unprotect`), modelled from the specification.
-/

namespace TxPort

/-! ## Machine words -/

/-- Number of values of a 32-bit `UINT` / `ULONG` (`unsigned int`, lines 148 and 150). -/
def UINT_RANGE : Nat := 2 ^ 32

/-- Number of values of a 64-bit pointer (`ALIGN_TYPE`, `unsigned long long`, line 159). -/
def POINTER_RANGE : Nat := 2 ^ 64

/-! ## Lowest set bit (lines 334-342) -/

/-- Trailing-zero count of the low `width` bits of `x`, scanning from bit 0.
When none of them is set the scan runs off the end and yields `width`. -/
def ctzScan : Nat → Nat → Nat
  | 0, _ => 0
  | width + 1, x => if x % 2 = 1 then 0 else 1 + ctzScan width (x / 2)

/-- The compiler builtin `__builtin_ctz` on an `unsigned int`: the number of
trailing zero bits.  The builtin leaves the result for `0` undefined; the
scan gives `32` there. -/
def __builtin_ctz (x : Nat) : Nat := ctzScan 32 x

/-- Line 340: `#define TX_LOWEST_SET_BIT_CALCULATE(m, b)
b = (UINT) __builtin_ctz((unsigned int) m);`.  The function returns the value
assigned to `b`. -/
def TX_LOWEST_SET_BIT_CALCULATE (m : Nat) : Nat :=
  __builtin_ctz (m % UINT_RANGE) % UINT_RANGE

/-! ## Timeout hand-off (lines 345-360) -/

/-- Byte-addressed memory. -/
abbrev Memory := Nat → Nat

/-- Little-endian store of the low `n` bytes of `v` at address `a`. -/
def storeBytes (n : Nat) (mem : Memory) (a v : Nat) : Memory :=
  fun x => if a ≤ x ∧ x < a + n then v / 256 ^ (x - a) % 256 else mem x

/-- Little-endian load of `n` bytes at address `a`. -/
def loadBytes : Nat → Memory → Nat → Nat
  | 0, _, _ => 0
  | n + 1, mem, a => mem a % 256 + 256 * loadBytes n mem (a + 1)

/-- Store of a 64-bit pointer. -/
def storePtr (mem : Memory) (a v : Nat) : Memory := storeBytes 8 mem a v

/-- Store of a 32-bit `ULONG`. -/
def storeULONG (mem : Memory) (a v : Nat) : Memory := storeBytes 4 mem a v

/-- Load of a 64-bit pointer. -/
def loadPtr (mem : Memory) (a : Nat) : Nat := loadBytes 8 mem a

/-- Byte offsets of the members the two timeout macros name.  `TX_THREAD` and
`TX_TIMER_INTERNAL` are declared outside this header (only the member
`tx_timer_internal_extension_ptr` is contributed by it, line 348), so the
layout is a parameter. -/
structure Layout where
  /-- Offset of `tx_thread_timer` in `TX_THREAD`. -/
  tx_thread_timer : Nat
  /-- Offset of `tx_timer_internal_timeout_function` in `TX_TIMER_INTERNAL`. -/
  tx_timer_internal_timeout_function : Nat
  /-- Offset of `tx_timer_internal_timeout_param` in `TX_TIMER_INTERNAL`. -/
  tx_timer_internal_timeout_param : Nat
  /-- Offset of `tx_timer_internal_extension_ptr` in `TX_TIMER_INTERNAL`. -/
  tx_timer_internal_extension_ptr : Nat

/-- Lines 353-355, the three assignments in source order:
`(t)->tx_thread_timer.tx_timer_internal_timeout_function = &(_tx_thread_timeout);`
`(t)->tx_thread_timer.tx_timer_internal_timeout_param = 0;`
`(t)->tx_thread_timer.tx_timer_internal_extension_ptr = (VOID *) (t);`
`_tx_thread_timeout` is the address of the timeout function. -/
def TX_THREAD_CREATE_TIMEOUT_SETUP (L : Layout) (_tx_thread_timeout : Nat)
    (mem : Memory) (t : Nat) : Memory :=
  let mem1 := storePtr mem (t + L.tx_thread_timer + L.tx_timer_internal_timeout_function)
    _tx_thread_timeout
  let mem2 := storeULONG mem1 (t + L.tx_thread_timer + L.tx_timer_internal_timeout_param) 0
  storePtr mem2 (t + L.tx_thread_timer + L.tx_timer_internal_extension_ptr) t

/-- Line 360: `(t) = (TX_THREAD *) _tx_timer_expired_timer_ptr ->
tx_timer_internal_extension_ptr;`.  The function returns the value assigned
to `t`. -/
def TX_THREAD_TIMEOUT_POINTER_SETUP (L : Layout) (mem : Memory)
    (_tx_timer_expired_timer_ptr : Nat) : Nat :=
  loadPtr mem (_tx_timer_expired_timer_ptr + L.tx_timer_internal_extension_ptr)

/-! ## Protection structure and lockout macros (lines 363-392) -/

/-- Lines 370-379: the SMP protection structure. -/
structure TX_THREAD_SMP_PROTECT where
  tx_thread_smp_protect_in_force : Nat
  tx_thread_smp_protect_core : Nat
  tx_thread_smp_protect_count : Nat
  tx_thread_smp_protect_pad_0 : Nat
  tx_thread_smp_protect_pad_1 : Nat
  tx_thread_smp_protect_pad_2 : Nat
  tx_thread_smp_protect_pad_3 : Nat

/-- Line 197: `TX_INT_DISABLE`, IRQ and FIQ masked. -/
def TX_INT_DISABLE : Nat := 0xC0

/-- Line 198: `TX_INT_ENABLE`, IRQ and FIQ enabled. -/
def TX_INT_ENABLE : Nat := 0x00

/-- A call the lockout macros of one scope make, as seen from outside. -/
inductive PortCall
  | protect_returned (value : Nat)
  | unprotect_called (argument : Nat)
  deriving DecidableEq

/-- A scope that uses the lockout macros: the local `interrupt_save` of
`TX_INTERRUPT_SAVE_AREA` (line 389, a `UINT`), the kernel state the protection
functions act on, and the calls made so far. -/
structure Scope (K : Type) where
  interrupt_save : Nat
  kernel : K
  portCalls : List PortCall

/-- Line 391: `#define TX_DISABLE  interrupt_save = _tx_thread_smp_protect();`.
The function `_tx_thread_smp_protect` is a parameter; `none` stands for a call
that does not return. -/
def TX_DISABLE {K : Type} (_tx_thread_smp_protect : K → Option (Nat × K))
    (sc : Scope K) : Option (Scope K) :=
  match _tx_thread_smp_protect sc.kernel with
  | some (value, kernel) =>
      some { interrupt_save := value % UINT_RANGE, kernel := kernel,
             portCalls := sc.portCalls ++ [.protect_returned value] }
  | none => none

/-- Line 392: `#define TX_RESTORE  _tx_thread_smp_unprotect(interrupt_save);`.
The function `_tx_thread_smp_unprotect` is a parameter. -/
def TX_RESTORE {K : Type} (_tx_thread_smp_unprotect : Nat → K → K)
    (sc : Scope K) : Scope K :=
  { sc with
    kernel := _tx_thread_smp_unprotect sc.interrupt_save sc.kernel,
    portCalls := sc.portCalls ++ [.unprotect_called sc.interrupt_save] }

/-- The kernel state the protection primitive acts on: the one protection
structure, and for every core its local interrupt posture. -/
structure Kernel where
  _tx_thread_smp_protection : TX_THREAD_SMP_PROTECT
  interrupt_posture : Nat → Nat

/-- Posture table with the posture of `core` replaced. -/
def setPosture (posture : Nat → Nat) (core value : Nat) : Nat → Nat :=
  fun c => if c = core then value else posture c

/-- Modelled from the spec: `_tx_thread_smp_protect`, which the header names in
`TX_DISABLE` and does not define.  One attempt of core `core`, atomic with
respect to all cores: when the protection is not held the core acquires it
(`held`, `owner_core`, depth one more); when the calling core already holds it
the depth is incremented and the call returns; when another core holds it the
caller keeps spinning, here `none`.  A returning call masks the local
interrupts of the core and returns the prior posture as the token.  `held`,
`owner_core` and `depth` are the fields `tx_thread_smp_protect_in_force`,
`tx_thread_smp_protect_core` and `tx_thread_smp_protect_count`; core
identifiers are `0..MaxCores-1` and fit the `ULONG` field. -/
def _tx_thread_smp_protect (core : Nat) (k : Kernel) : Option (Nat × Kernel) :=
  let p := k._tx_thread_smp_protection
  if p.tx_thread_smp_protect_in_force = 0 then
    some (k.interrupt_posture core,
      { _tx_thread_smp_protection :=
          { p with
            tx_thread_smp_protect_in_force := 1,
            tx_thread_smp_protect_core := core,
            tx_thread_smp_protect_count := (p.tx_thread_smp_protect_count + 1) % UINT_RANGE },
        interrupt_posture := setPosture k.interrupt_posture core TX_INT_DISABLE })
  else if p.tx_thread_smp_protect_core = core then
    some (k.interrupt_posture core,
      { _tx_thread_smp_protection :=
          { p with
            tx_thread_smp_protect_count := (p.tx_thread_smp_protect_count + 1) % UINT_RANGE },
        interrupt_posture := setPosture k.interrupt_posture core TX_INT_DISABLE })
  else
    none

/-- Modelled from the spec: `_tx_thread_smp_unprotect`, which the header names
in `TX_RESTORE` and does not define.  Called by core `core` with a token:
decrements the depth; when it reaches zero, clears `held` and `owner_core` and
restores the local interrupt posture of the core from the token. -/
def _tx_thread_smp_unprotect (core : Nat) (token : Nat) (k : Kernel) : Kernel :=
  let p := k._tx_thread_smp_protection
  let depth := (p.tx_thread_smp_protect_count + UINT_RANGE - 1) % UINT_RANGE
  if depth = 0 then
    { _tx_thread_smp_protection :=
        { p with
          tx_thread_smp_protect_in_force := 0,
          tx_thread_smp_protect_core := 0,
          tx_thread_smp_protect_count := 0 },
      interrupt_posture := setPosture k.interrupt_posture core token }
  else
    { k with
      _tx_thread_smp_protection := { p with tx_thread_smp_protect_count := depth } }

/-- The unprotected state: not in force, count 0. -/
def unprotected (k : Kernel) : Prop :=
  k._tx_thread_smp_protection.tx_thread_smp_protect_in_force = 0 ∧
    k._tx_thread_smp_protection.tx_thread_smp_protect_count = 0

instance (k : Kernel) : Decidable (unprotected k) := by
  unfold unprotected
  infer_instance

/-- The protection is held by `core` with the given depth. -/
def heldBy (k : Kernel) (core depth : Nat) : Prop :=
  k._tx_thread_smp_protection.tx_thread_smp_protect_in_force = 1 ∧
    k._tx_thread_smp_protection.tx_thread_smp_protect_core = core ∧
    k._tx_thread_smp_protection.tx_thread_smp_protect_count = depth

instance (k : Kernel) (core depth : Nat) : Decidable (heldBy k core depth) := by
  unfold heldBy
  infer_instance

/-- What a core does to the protection. -/
inductive Action
  | protect (core : Nat)
  | unprotect (core : Nat) (token : Nat)

/-- The cores sharing one kernel: the kernel state, and for every core the
number of its `protect()` calls that have returned and are not yet matched by
an `unprotect()`.  A core is inside the critical section when its number is
positive. -/
structure Cores where
  kernel : Kernel
  inside : Nat → Nat

/-- One atomic step of the interleaving.  A `protect()` attempt that cannot
acquire leaves everything as it is (the caller spins).  The contract of the
primitive rules out an `unprotect()` without a matching `protect()` and a
nesting deeper than the 32-bit count can hold; such a step gives `none`. -/
def Cores.step (s : Cores) : Action → Option Cores
  | .protect core =>
      if s.inside core + 1 < UINT_RANGE then
        match _tx_thread_smp_protect core s.kernel with
        | some (_, kernel) =>
            some { kernel := kernel,
                   inside := fun c => if c = core then s.inside c + 1 else s.inside c }
        | none => some s
      else none
  | .unprotect core token =>
      if 0 < s.inside core then
        some { kernel := _tx_thread_smp_unprotect core token s.kernel,
               inside := fun c => if c = core then s.inside c - 1 else s.inside c }
      else none

/-- An interleaving of steps. -/
def Cores.run (s : Cores) : List Action → Option Cores
  | [] => some s
  | a :: rest =>
      match s.step a with
      | some s1 => s1.run rest
      | none => none

/-- The cores before any of them has called `protect()`. -/
def Cores.start (k : Kernel) : Cores := { kernel := k, inside := fun _ => 0 }

/-- A kernel with the protection not in force and interrupts enabled on every core. -/
def Kernel.initial : Kernel :=
  { _tx_thread_smp_protection := ⟨0, 0, 0, 0, 0, 0, 0⟩,
    interrupt_posture := fun _ => TX_INT_ENABLE }

/-- The invariant of the interleaving: either the protection is free and no
core is inside, or it is held by one core whose nesting is the count, and no
other core is inside. -/
def Cores.consistent (s : Cores) : Prop :=
  (unprotected s.kernel ∧ ∀ c, s.inside c = 0) ∨
    ∃ owner, heldBy s.kernel owner (s.inside owner) ∧ 0 < s.inside owner ∧
      s.inside owner < UINT_RANGE ∧ ∀ c, c ≠ owner → s.inside c = 0

/-! ## The preprocessor layer -/

/-- Names the header tests, defines or undefines. -/
inductive Sym
  | TX_PORT_H
  | TX_THREAD_SMP_MAX_CORES
  | TX_THREAD_SMP_CORE_MASK
  | INLINE_DECLARE
  | TX_PORT_SPECIFIC_PRE_INITIALIZATION
  | TX_PORT_SPECIFIC_PRE_SCHEDULER_INITIALIZATION
  | TX_THREAD_SMP_INTER_CORE_INTERRUPT
  | TX_THREAD_SMP_WAKEUP_LOGIC
  | TX_THREAD_SMP_DEFAULT_WAKEUP_LOGIC
  | TX_THREAD_SMP_WAKEUP
  | TX_INLINE_THREAD_RESUME_SUSPEND
  | TX_INCLUDE_USER_DEFINE_FILE
  | VOID
  | ULONG64_DEFINED
  | ALIGN_TYPE_DEFINED
  | TX_BYTE_BLOCK_FREE
  | TX_MAX_PRIORITIES
  | TX_MINIMUM_STACK
  | TX_TIMER_THREAD_STACK_SIZE
  | TX_TIMER_THREAD_PRIORITY
  | TX_INT_DISABLE
  | TX_INT_ENABLE
  | TX_MISRA_ENABLE
  | TX_TRACE_TIME_SOURCE
  | TX_TRACE_TIME_MASK
  | TX_ENABLE_FIQ_SUPPORT
  | TX_FIQ_ENABLED
  | TX_ENABLE_IRQ_NESTING
  | TX_IRQ_NESTING_ENABLED
  | TX_ENABLE_FIQ_NESTING
  | TX_FIQ_NESTING_ENABLED
  | TX_PORT_SPECIFIC_BUILD_OPTIONS
  | TX_DISABLE_INLINE
  | TX_INLINE_INITIALIZATION
  | TX_ENABLE_STACK_CHECKING
  | TX_DISABLE_STACK_FILLING
  | TX_THREAD_EXTENSION_0
  | TX_THREAD_EXTENSION_1
  | TX_THREAD_EXTENSION_2
  | TX_THREAD_EXTENSION_3
  | TX_BLOCK_POOL_EXTENSION
  | TX_BYTE_POOL_EXTENSION
  | TX_EVENT_FLAGS_GROUP_EXTENSION
  | TX_MUTEX_EXTENSION
  | TX_QUEUE_EXTENSION
  | TX_SEMAPHORE_EXTENSION
  | TX_TIMER_EXTENSION
  | TX_THREAD_USER_EXTENSION
  | TX_THREAD_CREATE_EXTENSION
  | TX_THREAD_DELETE_EXTENSION
  | TX_THREAD_COMPLETED_EXTENSION
  | TX_THREAD_TERMINATED_EXTENSION
  | TX_BLOCK_POOL_CREATE_EXTENSION
  | TX_BYTE_POOL_CREATE_EXTENSION
  | TX_EVENT_FLAGS_GROUP_CREATE_EXTENSION
  | TX_MUTEX_CREATE_EXTENSION
  | TX_QUEUE_CREATE_EXTENSION
  | TX_SEMAPHORE_CREATE_EXTENSION
  | TX_TIMER_CREATE_EXTENSION
  | TX_BLOCK_POOL_DELETE_EXTENSION
  | TX_BYTE_POOL_DELETE_EXTENSION
  | TX_EVENT_FLAGS_GROUP_DELETE_EXTENSION
  | TX_MUTEX_DELETE_EXTENSION
  | TX_QUEUE_DELETE_EXTENSION
  | TX_SEMAPHORE_DELETE_EXTENSION
  | TX_TIMER_DELETE_EXTENSION
  | TX_LOWEST_SET_BIT_CALCULATE
  | TX_TIMER_INTERNAL_EXTENSION
  | TX_THREAD_CREATE_TIMEOUT_SETUP
  | TX_THREAD_TIMEOUT_POINTER_SETUP
  | TX_INTERRUPT_SAVE_AREA
  | TX_DISABLE
  | TX_RESTORE
  | TX_BLOCK_POOL_DISABLE
  | TX_BYTE_POOL_DISABLE
  | TX_EVENT_FLAGS_GROUP_DISABLE
  | TX_MUTEX_DISABLE
  | TX_QUEUE_DISABLE
  | TX_SEMAPHORE_DISABLE
  | TX_SOURCE_CODE
  | tx_thread_fp_enable
  | tx_thread_fp_disable
  | TX_THREAD_INIT
  deriving DecidableEq

/-- Files named by an include directive of the header. -/
inductive HeaderFile
  | tx_thread_smp_core_wakeup_h
  | tx_user_h
  | stdlib_h
  | string_h
  deriving DecidableEq

/-- Replacement text of a definition.  Only the shapes the development
evaluates are structured; any other replacement text is kept as `text`. -/
inductive CExpr
  | empty
  | num (n : Nat)
  | name (s : Sym)
  | param (i : Nat)
  | bitor (a b : CExpr)
  | call0 (fn : String)
  | call1 (fn : String) (arg : CExpr)
  | text (s : String)
  deriving DecidableEq

/-- A definition: object-like (`arity = none`) or function-like with the
given number of parameters. -/
structure Definition where
  arity : Option Nat
  body : CExpr
  deriving DecidableEq

/-- Object-like definition. -/
def obj (body : CExpr) : Definition := ⟨none, body⟩

/-- Function-like definition with `n` parameters. -/
def fnlike (n : Nat) (body : CExpr) : Definition := ⟨some n, body⟩

/-- The table of defined names: the build configuration before the header is
read, the header's result afterwards. -/
abbrev Table := Sym → Option Definition

/-- `#ifdef s` holds. -/
def isDefined (tbl : Table) (s : Sym) : Bool := (tbl s).isSome

/-- Table with `s` defined as `d`. -/
def Table.set (tbl : Table) (s : Sym) (d : Definition) : Table :=
  fun x => if x = s then some d else tbl x

/-- Table with `s` not defined. -/
def Table.unset (tbl : Table) (s : Sym) : Table :=
  fun x => if x = s then none else tbl x

/-- The table in which nothing is defined. -/
def Table.empty : Table := fun _ => none

/-- A sequence of directives; each constructor carries the directives that
follow it.  `declaration` stands for C text between directives (typedefs,
prototypes), which leaves the table alone. -/
inductive Block
  | done
  | define (s : Sym) (d : Definition) (rest : Block)
  | undef (s : Sym) (rest : Block)
  | ifdef (s : Sym) (thenB elseB : Block) (rest : Block)
  | ifndef (s : Sym) (thenB elseB : Block) (rest : Block)
  | include_quoted (f : HeaderFile) (rest : Block)
  | include_system (f : HeaderFile) (rest : Block)
  | declaration (text : String) (rest : Block)

/-- Sequencing of two blocks. -/
def Block.append : Block → Block → Block
  | .done, b => b
  | .define s d r, b => .define s d (r.append b)
  | .undef s r, b => .undef s (r.append b)
  | .ifdef s t e r, b => .ifdef s t e (r.append b)
  | .ifndef s t e r, b => .ifndef s t e (r.append b)
  | .include_quoted f r, b => .include_quoted f (r.append b)
  | .include_system f r, b => .include_system f (r.append b)
  | .declaration x r, b => .declaration x (r.append b)

/-- The table after a block.  A definition replaces any earlier definition
of the same name.  The files included with quotes (`tx_user.h`,
`tx_thread_smp_core_wakeup.h`) are written by the user of the port; their
effect on the table is the parameter `inc`.  The C library headers define no
name of the table. -/
def process (inc : HeaderFile → Table → Table) : Block → Table → Table
  | .done, tbl => tbl
  | .define s d r, tbl => process inc r (tbl.set s d)
  | .undef s r, tbl => process inc r (tbl.unset s)
  | .ifdef s t e r, tbl =>
      process inc r (if isDefined tbl s then process inc t tbl else process inc e tbl)
  | .ifndef s t e r, tbl =>
      process inc r (if isDefined tbl s then process inc e tbl else process inc t tbl)
  | .include_quoted f r, tbl => process inc r (inc f tbl)
  | .include_system _ r, tbl => process inc r tbl
  | .declaration _ r, tbl => process inc r tbl

/-- What a block does, in order. -/
inductive Event
  | defined (s : Sym) (d : Definition)
  | undefined (s : Sym)
  | included (f : HeaderFile)
  deriving DecidableEq

/-- The directives of a block that take effect, in order, starting from `tbl`. -/
def trace (inc : HeaderFile → Table → Table) : Block → Table → List Event
  | .done, _ => []
  | .define s d r, tbl => .defined s d :: trace inc r (tbl.set s d)
  | .undef s r, tbl => .undefined s :: trace inc r (tbl.unset s)
  | .ifdef s t e r, tbl =>
      (if isDefined tbl s then trace inc t tbl else trace inc e tbl) ++
        trace inc r (if isDefined tbl s then process inc t tbl else process inc e tbl)
  | .ifndef s t e r, tbl =>
      (if isDefined tbl s then trace inc e tbl else trace inc t tbl) ++
        trace inc r (if isDefined tbl s then process inc e tbl else process inc t tbl)
  | .include_quoted f r, tbl => .included f :: trace inc r (inc f tbl)
  | .include_system f r, tbl => .included f :: trace inc r tbl
  | .declaration _ r, tbl => trace inc r tbl

/-- Names a block can define or undefine. -/
def Block.writes : Block → List Sym
  | .done => []
  | .define s _ r => s :: r.writes
  | .undef s r => s :: r.writes
  | .ifdef _ t e r => t.writes ++ e.writes ++ r.writes
  | .ifndef _ t e r => t.writes ++ e.writes ++ r.writes
  | .include_quoted _ r => r.writes
  | .include_system _ r => r.writes
  | .declaration _ r => r.writes

/-- Files a block can include with quotes. -/
def Block.quoted : Block → List HeaderFile
  | .done => []
  | .define _ _ r => r.quoted
  | .undef _ r => r.quoted
  | .ifdef _ t e r => t.quoted ++ e.quoted ++ r.quoted
  | .ifndef _ t e r => t.quoted ++ e.quoted ++ r.quoted
  | .include_quoted f r => f :: r.quoted
  | .include_system _ r => r.quoted
  | .declaration _ r => r.quoted

/-- Files a block can include, with quotes or with angle brackets. -/
def Block.includes : Block → List HeaderFile
  | .done => []
  | .define _ _ r => r.includes
  | .undef _ r => r.includes
  | .ifdef _ t e r => t.includes ++ e.includes ++ r.includes
  | .ifndef _ t e r => t.includes ++ e.includes ++ r.includes
  | .include_quoted f r => f :: r.includes
  | .include_system f r => f :: r.includes
  | .declaration _ r => r.includes

/-- Value of a constant expression: names are replaced by their object-like
definitions, at most `fuel` levels deep. -/
def evalConst (tbl : Table) : Nat → CExpr → Option Nat
  | _, .num n => some n
  | fuel + 1, .name s =>
      match tbl s with
      | some d => if d.arity = none then evalConst tbl fuel d.body else none
      | none => none
  | fuel + 1, .bitor a b =>
      match evalConst tbl fuel a, evalConst tbl fuel b with
      | some x, some y => some (x ||| y)
      | _, _ => none
  | _, _ => none

/-- Replacement of the parameters of a function-like definition by arguments. -/
def subst (args : List CExpr) : CExpr → CExpr
  | .param i => args.getD i (.param i)
  | .bitor a b => .bitor (subst args a) (subst args b)
  | .call1 fn a => .call1 fn (subst args a)
  | e => e

/-- Expansion of the invocation `s(args)` of a function-like definition. -/
def expand (tbl : Table) (s : Sym) (args : List CExpr) : Option CExpr :=
  match tbl s with
  | some d => if d.arity = some args.length then some (subst args d.body) else none
  | none => none

/-- The function calls an expression makes, in evaluation order, each with
its argument expression (`none` for a call without arguments). -/
def calls : CExpr → List (String × Option CExpr)
  | .bitor a b => calls a ++ calls b
  | .call0 fn => [(fn, none)]
  | .call1 fn a => calls a ++ [(fn, some a)]
  | _ => []

/-! ## The header, directive by directive -/

/-- Lines 60-73: the SMP core count and core mask. -/
def smp_core_constants : Block :=
  .ifndef .TX_THREAD_SMP_MAX_CORES
    (.define .TX_THREAD_SMP_MAX_CORES (obj (.num 4)) .done) .done <|
  .ifndef .TX_THREAD_SMP_CORE_MASK
    (.define .TX_THREAD_SMP_CORE_MASK (obj (.num 0xF)) .done) .done <|
  .done

/-- Lines 76-93. -/
def smp_initialization : Block :=
  .define .INLINE_DECLARE (obj .empty) <|
  .define .TX_PORT_SPECIFIC_PRE_INITIALIZATION (obj .empty) <|
  .define .TX_PORT_SPECIFIC_PRE_SCHEDULER_INITIALIZATION (obj .empty) <|
  .define .TX_THREAD_SMP_INTER_CORE_INTERRUPT (obj .empty) <|
  .done

/-- Line 109: the default wake-up definition,
`TX_THREAD_SMP_WAKEUP(i)  _tx_thread_smp_core_preempt(i)`. -/
def default_wakeup : Definition :=
  fnlike 1 (.call1 "_tx_thread_smp_core_preempt" (.param 0))

/-- Lines 96-111: the wake-up logic. -/
def smp_wakeup_logic : Block :=
  .ifdef .TX_THREAD_SMP_WAKEUP_LOGIC
    (.include_quoted .tx_thread_smp_core_wakeup_h .done)
    (.ifdef .TX_THREAD_SMP_DEFAULT_WAKEUP_LOGIC
      (.define .TX_THREAD_SMP_WAKEUP_LOGIC (obj .empty) <|
       .define .TX_THREAD_SMP_WAKEUP default_wakeup <|
       .done)
      .done .done) <|
  .done

/-- Lines 114-118. -/
def inline_resume_suspend : Block :=
  .ifdef .TX_INLINE_THREAD_RESUME_SUSPEND
    (.undef .TX_INLINE_THREAD_RESUME_SUSPEND .done) .done <|
  .done

/-- Lines 124-139: the user define file and the C library headers. -/
def include_files : Block :=
  .ifdef .TX_INCLUDE_USER_DEFINE_FILE
    (.include_quoted .tx_user_h .done) .done <|
  .include_system .stdlib_h <|
  .include_system .string_h <|
  .done

/-- Lines 142-164: the basic types. -/
def basic_types : Block :=
  .define .VOID (obj (.text "void")) <|
  .declaration "typedef char CHAR; typedef unsigned char UCHAR; typedef int INT; typedef unsigned int UINT; typedef int LONG; typedef unsigned int ULONG; typedef unsigned long long ULONG64; typedef short SHORT; typedef unsigned short USHORT;" <|
  .define .ULONG64_DEFINED (obj .empty) <|
  .define .ALIGN_TYPE_DEFINED (obj .empty) <|
  .declaration "typedef unsigned long long ALIGN_TYPE;" <|
  .define .TX_BYTE_BLOCK_FREE (obj (.text "((ALIGN_TYPE) 0xFFFFEEEEFFFFEEEE)")) <|
  .done

/-- Lines 167-198: priorities, stack sizes, interrupt constants. -/
def kernel_constants : Block :=
  .ifndef .TX_MAX_PRIORITIES (.define .TX_MAX_PRIORITIES (obj (.num 32)) .done) .done <|
  .ifndef .TX_MINIMUM_STACK (.define .TX_MINIMUM_STACK (obj (.num 200)) .done) .done <|
  .ifndef .TX_TIMER_THREAD_STACK_SIZE
    (.define .TX_TIMER_THREAD_STACK_SIZE (obj (.num 4096)) .done) .done <|
  .ifndef .TX_TIMER_THREAD_PRIORITY
    (.define .TX_TIMER_THREAD_PRIORITY (obj (.num 0)) .done) .done <|
  .define .TX_INT_DISABLE (obj (.num 0xC0)) <|
  .define .TX_INT_ENABLE (obj (.num 0x00)) <|
  .done

/-- Lines 210-222: the trace time source. -/
def trace_time : Block :=
  .ifndef .TX_MISRA_ENABLE
    (.ifndef .TX_TRACE_TIME_SOURCE
      (.define .TX_TRACE_TIME_SOURCE (obj (.call0 "_tx_thread_smp_time_get")) .done)
      .done .done)
    (.ifndef .TX_TRACE_TIME_SOURCE
      (.declaration "ULONG _tx_misra_time_stamp_get(VOID);" <|
       .define .TX_TRACE_TIME_SOURCE (obj (.call0 "_tx_misra_time_stamp_get")) .done)
      .done .done) <|
  .ifndef .TX_TRACE_TIME_MASK
    (.define .TX_TRACE_TIME_MASK (obj (.num 0xFFFFFFFF)) .done) .done <|
  .done

/-- Lines 225-246: the port specific build options. -/
def build_options : Block :=
  .ifdef .TX_ENABLE_FIQ_SUPPORT
    (.define .TX_FIQ_ENABLED (obj (.num 1)) .done)
    (.define .TX_FIQ_ENABLED (obj (.num 0)) .done) <|
  .ifdef .TX_ENABLE_IRQ_NESTING
    (.define .TX_IRQ_NESTING_ENABLED (obj (.num 2)) .done)
    (.define .TX_IRQ_NESTING_ENABLED (obj (.num 0)) .done) <|
  .ifdef .TX_ENABLE_FIQ_NESTING
    (.define .TX_FIQ_NESTING_ENABLED (obj (.num 4)) .done)
    (.define .TX_FIQ_NESTING_ENABLED (obj (.num 0)) .done) <|
  .define .TX_PORT_SPECIFIC_BUILD_OPTIONS
    (obj (.bitor (.bitor (.name .TX_FIQ_ENABLED) (.name .TX_IRQ_NESTING_ENABLED))
      (.name .TX_FIQ_NESTING_ENABLED))) <|
  .done

/-- Lines 249-257. -/
def inline_initialization : Block :=
  .ifdef .TX_MISRA_ENABLE
    (.define .TX_DISABLE_INLINE (obj .empty) .done)
    (.define .TX_INLINE_INITIALIZATION (obj .empty) .done) <|
  .done

/-- Lines 260-270: stack checking. -/
def stack_checking : Block :=
  .ifndef .TX_MISRA_ENABLE
    (.ifdef .TX_ENABLE_STACK_CHECKING
      (.undef .TX_DISABLE_STACK_FILLING .done) .done .done)
    .done <|
  .done

/-- Lines 273-331: the control block and object extensions. -/
def extensions : Block :=
  .define .TX_THREAD_EXTENSION_0 (obj .empty) <|
  .define .TX_THREAD_EXTENSION_1 (obj .empty) <|
  .define .TX_THREAD_EXTENSION_2 (obj (.text "ULONG tx_thread_fp_enable;")) <|
  .define .TX_THREAD_EXTENSION_3 (obj (.text "VOID *tx_thread_extension_ptr;")) <|
  .define .TX_BLOCK_POOL_EXTENSION (obj .empty) <|
  .define .TX_BYTE_POOL_EXTENSION (obj .empty) <|
  .define .TX_EVENT_FLAGS_GROUP_EXTENSION (obj .empty) <|
  .define .TX_MUTEX_EXTENSION (obj .empty) <|
  .define .TX_QUEUE_EXTENSION (obj .empty) <|
  .define .TX_SEMAPHORE_EXTENSION (obj .empty) <|
  .define .TX_TIMER_EXTENSION (obj .empty) <|
  .ifndef .TX_THREAD_USER_EXTENSION
    (.define .TX_THREAD_USER_EXTENSION (obj .empty) .done) .done <|
  .define .TX_THREAD_CREATE_EXTENSION (fnlike 1 .empty) <|
  .define .TX_THREAD_DELETE_EXTENSION (fnlike 1 .empty) <|
  .define .TX_THREAD_COMPLETED_EXTENSION (fnlike 1 .empty) <|
  .define .TX_THREAD_TERMINATED_EXTENSION (fnlike 1 .empty) <|
  .define .TX_BLOCK_POOL_CREATE_EXTENSION (fnlike 1 .empty) <|
  .define .TX_BYTE_POOL_CREATE_EXTENSION (fnlike 1 .empty) <|
  .define .TX_EVENT_FLAGS_GROUP_CREATE_EXTENSION (fnlike 1 .empty) <|
  .define .TX_MUTEX_CREATE_EXTENSION (fnlike 1 .empty) <|
  .define .TX_QUEUE_CREATE_EXTENSION (fnlike 1 .empty) <|
  .define .TX_SEMAPHORE_CREATE_EXTENSION (fnlike 1 .empty) <|
  .define .TX_TIMER_CREATE_EXTENSION (fnlike 1 .empty) <|
  .define .TX_BLOCK_POOL_DELETE_EXTENSION (fnlike 1 .empty) <|
  .define .TX_BYTE_POOL_DELETE_EXTENSION (fnlike 1 .empty) <|
  .define .TX_EVENT_FLAGS_GROUP_DELETE_EXTENSION (fnlike 1 .empty) <|
  .define .TX_MUTEX_DELETE_EXTENSION (fnlike 1 .empty) <|
  .define .TX_QUEUE_DELETE_EXTENSION (fnlike 1 .empty) <|
  .define .TX_SEMAPHORE_DELETE_EXTENSION (fnlike 1 .empty) <|
  .define .TX_TIMER_DELETE_EXTENSION (fnlike 1 .empty) <|
  .done

/-- Lines 334-360: lowest set bit and the timeout hand-off. -/
def bit_and_timeout : Block :=
  .ifndef .TX_DISABLE_INLINE
    (.define .TX_LOWEST_SET_BIT_CALCULATE
      (fnlike 2 (.text "b = (UINT) __builtin_ctz((unsigned int) m);")) .done) .done <|
  .define .TX_TIMER_INTERNAL_EXTENSION
    (obj (.text "VOID *tx_timer_internal_extension_ptr;")) <|
  .define .TX_THREAD_CREATE_TIMEOUT_SETUP
    (fnlike 1 (.text "(t) -> tx_thread_timer.tx_timer_internal_timeout_function = &(_tx_thread_timeout); (t) -> tx_thread_timer.tx_timer_internal_timeout_param = 0; (t) -> tx_thread_timer.tx_timer_internal_extension_ptr = (VOID *) (t);")) <|
  .define .TX_THREAD_TIMEOUT_POINTER_SETUP
    (fnlike 1 (.text "(t) = (TX_THREAD *) _tx_timer_expired_timer_ptr -> tx_timer_internal_extension_ptr;")) <|
  .done

/-- Lines 363-404: the protection structure and the lockout definitions. -/
def protection : Block :=
  .declaration "struct TX_THREAD_STRUCT;" <|
  .declaration "typedef struct TX_THREAD_SMP_PROTECT_STRUCT TX_THREAD_SMP_PROTECT;" <|
  .define .TX_INTERRUPT_SAVE_AREA (obj (.text "UINT interrupt_save;")) <|
  .define .TX_DISABLE (obj (.text "interrupt_save = _tx_thread_smp_protect();")) <|
  .define .TX_RESTORE (obj (.text "_tx_thread_smp_unprotect(interrupt_save);")) <|
  .define .TX_BLOCK_POOL_DISABLE (obj (.name .TX_DISABLE)) <|
  .define .TX_BYTE_POOL_DISABLE (obj (.name .TX_DISABLE)) <|
  .define .TX_EVENT_FLAGS_GROUP_DISABLE (obj (.name .TX_DISABLE)) <|
  .define .TX_MUTEX_DISABLE (obj (.name .TX_DISABLE)) <|
  .define .TX_QUEUE_DISABLE (obj (.name .TX_DISABLE)) <|
  .define .TX_SEMAPHORE_DISABLE (obj (.name .TX_DISABLE)) <|
  .done

/-- Lines 407-425: floating point entry points and the version string. -/
def fp_and_version : Block :=
  .ifndef .TX_SOURCE_CODE
    (.define .tx_thread_fp_enable (obj (.text "_tx_thread_fp_enable")) <|
     .define .tx_thread_fp_disable (obj (.text "_tx_thread_fp_disable")) <|
     .done) .done <|
  .declaration "VOID tx_thread_fp_enable(VOID); VOID tx_thread_fp_disable(VOID);" <|
  .ifdef .TX_THREAD_INIT
    (.declaration "CHAR _tx_version_id[] = ...;" .done)
    (.declaration "extern CHAR _tx_version_id[];" .done) <|
  .done

/-- Lines 60-118, up to the first file the header may include. -/
def smp_constants : Block :=
  smp_core_constants.append <| smp_initialization.append <| smp_wakeup_logic.append <|
  inline_resume_suspend

/-- Lines 142-270, from the basic types to the stack checking test. -/
def port_constants : Block :=
  basic_types.append <| kernel_constants.append <| trace_time.append <|
  build_options.append <| inline_initialization.append <| stack_checking

/-- Lines 273-425. -/
def port_extensions : Block :=
  extensions.append <| bit_and_timeout.append <| protection.append <| fp_and_version

/-- Lines 58-426: what the include guard encloses. -/
def tx_port_h_body : Block :=
  smp_constants.append <| include_files.append <| port_constants.append <| port_extensions

/-- The header: `#ifndef TX_PORT_H`, `#define TX_PORT_H`, the body, `#endif`. -/
def tx_port_h : Block :=
  .ifndef .TX_PORT_H (.define .TX_PORT_H (obj .empty) tx_port_h_body) .done .done

/-- Lines 114-425: everything after the wake-up logic. -/
def after_wakeup_logic : Block :=
  inline_resume_suspend.append <| include_files.append <| port_constants.append <|
  port_extensions

/-- The table with which the header reaches the wake-up logic (line 98). -/
def atWakeupLogic (inc : HeaderFile → Table → Table) (cfg : Table) : Table :=
  process inc smp_initialization
    (process inc smp_core_constants (cfg.set .TX_PORT_H (obj .empty)))

/-! ## Lemmas: lowest set bit -/

theorem loadBytes_storeBytes (n : Nat) :
    ∀ (k : Nat) (mem : Memory) (a v b : Nat), b + k + n = a + 8 → a ≤ b + k →
      loadBytes n (storeBytes 8 mem a v) (b + k) = v / 256 ^ (b + k - a) % 256 ^ n := by
  induction n with
  | zero => intro k mem a v b _ _; simp [loadBytes, Nat.mod_one]
  | succ n ih =>
    intro k mem a v b h1 h2
    have hstep := ih (k + 1) mem a v b (by omega) (by omega)
    rw [← Nat.add_assoc] at hstep
    simp only [loadBytes]
    rw [hstep]
    have hin : a ≤ b + k ∧ b + k < a + 8 := ⟨h2, by omega⟩
    simp only [storeBytes, hin, and_self, if_true]
    have hsub : b + k + 1 - a = (b + k - a) + 1 := by omega
    rw [hsub, pow_succ, ← Nat.div_div_eq_div_mul, Nat.mod_mod, pow_succ,
      Nat.mul_comm (256 ^ n) 256, Nat.mod_mul]

theorem loadPtr_storePtr (mem : Memory) (a v : Nat) :
    loadPtr (storePtr mem a v) a = v % 2 ^ 64 := by
  have h := loadBytes_storeBytes 8 0 mem a v a (by omega) (by omega)
  simp only [Nat.add_zero, Nat.sub_self, pow_zero, Nat.div_one] at h
  simpa [loadPtr, storePtr] using h

/-! ## Lemmas: directives -/

@[simp]
theorem Table.set_apply (tbl : Table) (s x : Sym) (d : Definition) :
    tbl.set s d x = if x = s then some d else tbl x := rfl

@[simp]
theorem Table.unset_apply (tbl : Table) (s x : Sym) :
    tbl.unset s x = if x = s then Option.none else tbl x := rfl

@[simp]
theorem isDefined_set (tbl : Table) (s x : Sym) (d : Definition) :
    isDefined (tbl.set s d) x = if x = s then true else isDefined tbl x := by
  unfold isDefined
  rw [Table.set_apply]
  split <;> rfl

@[simp]
theorem isDefined_unset (tbl : Table) (s x : Sym) :
    isDefined (tbl.unset s) x = if x = s then false else isDefined tbl x := by
  unfold isDefined
  rw [Table.unset_apply]
  split <;> rfl

theorem process_append (inc : HeaderFile → Table → Table) (a b : Block) :
    ∀ tbl, process inc (a.append b) tbl = process inc b (process inc a tbl) := by
  induction a with
  | done => intro tbl; rfl
  | define s d r ih => intro tbl; simp [Block.append, process, ih]
  | undef s r ih => intro tbl; simp [Block.append, process, ih]
  | ifdef s t e r _ _ ih => intro tbl; simp [Block.append, process, ih]
  | ifndef s t e r _ _ ih => intro tbl; simp [Block.append, process, ih]
  | include_quoted f r ih => intro tbl; simp [Block.append, process, ih]
  | include_system f r ih => intro tbl; simp [Block.append, process, ih]
  | declaration x r ih => intro tbl; simp [Block.append, process, ih]

theorem trace_append (inc : HeaderFile → Table → Table) (a b : Block) :
    ∀ tbl, trace inc (a.append b) tbl = trace inc a tbl ++ trace inc b (process inc a tbl) := by
  induction a with
  | done => intro tbl; rfl
  | define s d r ih => intro tbl; simp [Block.append, process, trace, ih]
  | undef s r ih => intro tbl; simp [Block.append, process, trace, ih]
  | ifdef s t e r _ _ ih => intro tbl; simp [Block.append, process, trace, ih]
  | ifndef s t e r _ _ ih => intro tbl; simp [Block.append, process, trace, ih]
  | include_quoted f r ih => intro tbl; simp [Block.append, process, trace, ih]
  | include_system f r ih => intro tbl; simp [Block.append, process, trace, ih]
  | declaration x r ih => intro tbl; simp [Block.append, process, trace, ih]

/-- A name a block neither defines nor undefines, and that the files it may
include leave alone, keeps its definition. -/
theorem process_frame (inc : HeaderFile → Table → Table) (s : Sym) (b : Block) :
    s ∉ b.writes → (∀ f ∈ b.quoted, ∀ tbl, inc f tbl s = tbl s) →
      ∀ tbl, process inc b tbl s = tbl s := by
  induction b with
  | done => intro _ _ tbl; rfl
  | define x d r ih =>
    intro hw hq tbl
    simp only [Block.writes, List.mem_cons, not_or] at hw
    simp only [Block.quoted] at hq
    simp [process, ih hw.2 hq, Table.set, hw.1]
  | undef x r ih =>
    intro hw hq tbl
    simp only [Block.writes, List.mem_cons, not_or] at hw
    simp only [Block.quoted] at hq
    simp [process, ih hw.2 hq, Table.unset, hw.1]
  | ifdef x t e r iht ihe ih =>
    intro hw hq tbl
    simp only [Block.writes, List.mem_append, not_or] at hw
    simp only [Block.quoted, List.mem_append] at hq
    have ht := iht hw.1.1 (fun f hf => hq f (Or.inl (Or.inl hf)))
    have he := ihe hw.1.2 (fun f hf => hq f (Or.inl (Or.inr hf)))
    have hr := ih hw.2 (fun f hf => hq f (Or.inr hf))
    simp only [process, hr]
    split <;> simp [ht, he]
  | ifndef x t e r iht ihe ih =>
    intro hw hq tbl
    simp only [Block.writes, List.mem_append, not_or] at hw
    simp only [Block.quoted, List.mem_append] at hq
    have ht := iht hw.1.1 (fun f hf => hq f (Or.inl (Or.inl hf)))
    have he := ihe hw.1.2 (fun f hf => hq f (Or.inl (Or.inr hf)))
    have hr := ih hw.2 (fun f hf => hq f (Or.inr hf))
    simp only [process, hr]
    split <;> simp [ht, he]
  | include_quoted f r ih =>
    intro hw hq tbl
    simp only [Block.writes] at hw
    simp only [Block.quoted, List.mem_cons] at hq
    have hr := ih hw (fun g hg => hq g (Or.inr hg))
    simp [process, hr, hq f (Or.inl rfl)]
  | include_system f r ih =>
    intro hw hq tbl
    simp only [Block.writes] at hw
    simp only [Block.quoted] at hq
    simp [process, ih hw hq]
  | declaration x r ih =>
    intro hw hq tbl
    simp only [Block.writes] at hw
    simp only [Block.quoted] at hq
    simp [process, ih hw hq]

/-- A block defines only names among its `writes`. -/
theorem trace_defined_writes (inc : HeaderFile → Table → Table) (s : Sym) (d : Definition)
    (b : Block) : ∀ tbl, Event.defined s d ∈ trace inc b tbl → s ∈ b.writes := by
  induction b with
  | done => intro tbl h; simp [trace] at h
  | define x d2 r ih =>
    intro tbl h
    simp only [trace, List.mem_cons, Event.defined.injEq] at h
    rcases h with h | h
    · simp [Block.writes, h.1]
    · simp [Block.writes, ih _ h]
  | undef x r ih =>
    intro tbl h
    simp only [trace, List.mem_cons] at h
    rcases h with h | h
    · cases h
    · simp [Block.writes, ih _ h]
  | ifdef x t e r iht ihe ih =>
    intro tbl h
    simp only [trace, List.mem_append] at h
    simp only [Block.writes, List.mem_append]
    rcases h with h | h
    · split at h
      · exact Or.inl (Or.inl (iht _ h))
      · exact Or.inl (Or.inr (ihe _ h))
    · exact Or.inr (ih _ h)
  | ifndef x t e r iht ihe ih =>
    intro tbl h
    simp only [trace, List.mem_append] at h
    simp only [Block.writes, List.mem_append]
    rcases h with h | h
    · split at h
      · exact Or.inl (Or.inr (ihe _ h))
      · exact Or.inl (Or.inl (iht _ h))
    · exact Or.inr (ih _ h)
  | include_quoted f r ih =>
    intro tbl h
    simp only [trace, List.mem_cons] at h
    rcases h with h | h
    · cases h
    · simp [Block.writes, ih _ h]
  | include_system f r ih =>
    intro tbl h
    simp only [trace, List.mem_cons] at h
    rcases h with h | h
    · cases h
    · simp [Block.writes, ih _ h]
  | declaration x r ih =>
    intro tbl h
    simp only [trace] at h
    simp [Block.writes, ih _ h]

/-- A block includes only files among its `includes`. -/
theorem trace_included_includes (inc : HeaderFile → Table → Table) (f : HeaderFile)
    (b : Block) : ∀ tbl, Event.included f ∈ trace inc b tbl → f ∈ b.includes := by
  induction b with
  | done => intro tbl h; simp [trace] at h
  | define x d2 r ih =>
    intro tbl h
    simp only [trace, List.mem_cons] at h
    rcases h with h | h
    · cases h
    · simp [Block.includes, ih _ h]
  | undef x r ih =>
    intro tbl h
    simp only [trace, List.mem_cons] at h
    rcases h with h | h
    · cases h
    · simp [Block.includes, ih _ h]
  | ifdef x t e r iht ihe ih =>
    intro tbl h
    simp only [trace, List.mem_append] at h
    simp only [Block.includes, List.mem_append]
    rcases h with h | h
    · split at h
      · exact Or.inl (Or.inl (iht _ h))
      · exact Or.inl (Or.inr (ihe _ h))
    · exact Or.inr (ih _ h)
  | ifndef x t e r iht ihe ih =>
    intro tbl h
    simp only [trace, List.mem_append] at h
    simp only [Block.includes, List.mem_append]
    rcases h with h | h
    · split at h
      · exact Or.inl (Or.inr (ihe _ h))
      · exact Or.inl (Or.inl (iht _ h))
    · exact Or.inr (ih _ h)
  | include_quoted g r ih =>
    intro tbl h
    simp only [trace, List.mem_cons, Event.included.injEq] at h
    rcases h with h | h
    · simp [Block.includes, h]
    · simp [Block.includes, ih _ h]
  | include_system g r ih =>
    intro tbl h
    simp only [trace, List.mem_cons, Event.included.injEq] at h
    rcases h with h | h
    · simp [Block.includes, h]
    · simp [Block.includes, ih _ h]
  | declaration x r ih =>
    intro tbl h
    simp only [trace] at h
    simp [Block.includes, ih _ h]

/-! ## Lemmas: the shape of the header -/

/-- On its first inclusion the header runs its four parts in order. -/
theorem process_tx_port_h (inc : HeaderFile → Table → Table) (cfg : Table)
    (hfirst : isDefined cfg .TX_PORT_H = false) :
    process inc tx_port_h cfg =
      process inc port_extensions (process inc port_constants (process inc include_files
        (process inc smp_constants (cfg.set .TX_PORT_H (obj .empty))))) := by
  have h : process inc tx_port_h cfg =
      process inc tx_port_h_body (cfg.set .TX_PORT_H (obj .empty)) := by
    show (if isDefined cfg .TX_PORT_H then cfg
      else process inc tx_port_h_body (cfg.set .TX_PORT_H (obj .empty))) = _
    rw [hfirst]
    rfl
  rw [h]
  unfold tx_port_h_body
  rw [process_append, process_append, process_append]

/-- The header reaches the build options (line 228) with some table, and
what follows them is fixed. -/
theorem tx_port_h_at_build_options (inc : HeaderFile → Table → Table) (cfg : Table)
    (hfirst : isDefined cfg .TX_PORT_H = false) :
    ∃ tbl, process inc tx_port_h cfg =
      process inc port_extensions (process inc stack_checking
        (process inc inline_initialization (process inc build_options tbl))) := by
  rw [process_tx_port_h inc cfg hfirst]
  simp only [port_constants, process_append]
  exact ⟨_, rfl⟩

/-- No part of the header from the basic types on includes a user file. -/
theorem no_quoted (inc : HeaderFile → Table → Table) (s : Sym) (b : Block)
    (h : b.quoted = []) : ∀ f ∈ b.quoted, ∀ tbl, inc f tbl s = tbl s := by
  intro f hf
  rw [h] at hf
  cases hf

/-- The definitions the build options leave behind, read at the end of the header. -/
theorem build_options_final (inc : HeaderFile → Table → Table) (cfg : Table)
    (hfirst : isDefined cfg .TX_PORT_H = false) :
    let fin := process inc tx_port_h cfg
    fin .TX_PORT_SPECIFIC_BUILD_OPTIONS =
        some (obj (.bitor (.bitor (.name .TX_FIQ_ENABLED) (.name .TX_IRQ_NESTING_ENABLED))
          (.name .TX_FIQ_NESTING_ENABLED))) ∧
      fin .TX_FIQ_ENABLED =
        some (obj (.num (if isDefined fin .TX_ENABLE_FIQ_SUPPORT then 1 else 0))) ∧
      fin .TX_IRQ_NESTING_ENABLED =
        some (obj (.num (if isDefined fin .TX_ENABLE_IRQ_NESTING then 2 else 0))) ∧
      fin .TX_FIQ_NESTING_ENABLED =
        some (obj (.num (if isDefined fin .TX_ENABLE_FIQ_NESTING then 4 else 0))) := by
  obtain ⟨tbl, h⟩ := tx_port_h_at_build_options inc cfg hfirst
  have key : ∀ s, s ∉ port_extensions.writes → s ∉ stack_checking.writes →
      s ∉ inline_initialization.writes →
      process inc tx_port_h cfg s = process inc build_options tbl s := by
    intro s h1 h2 h3
    rw [h, process_frame inc s port_extensions h1 (no_quoted inc s _ (by decide)),
      process_frame inc s stack_checking h2 (no_quoted inc s _ (by decide)),
      process_frame inc s inline_initialization h3 (no_quoted inc s _ (by decide))]
  have flag : ∀ s, s ∉ port_extensions.writes → s ∉ stack_checking.writes →
      s ∉ inline_initialization.writes → s ∉ build_options.writes →
      isDefined (process inc tx_port_h cfg) s = isDefined tbl s := by
    intro s h1 h2 h3 h4
    unfold isDefined
    rw [key s h1 h2 h3, process_frame inc s build_options h4 (no_quoted inc s _ (by decide))]
  intro fin
  have e1 : isDefined fin .TX_ENABLE_FIQ_SUPPORT = isDefined tbl .TX_ENABLE_FIQ_SUPPORT :=
    flag _ (by decide) (by decide) (by decide) (by decide)
  have e2 : isDefined fin .TX_ENABLE_IRQ_NESTING = isDefined tbl .TX_ENABLE_IRQ_NESTING :=
    flag _ (by decide) (by decide) (by decide) (by decide)
  have e3 : isDefined fin .TX_ENABLE_FIQ_NESTING = isDefined tbl .TX_ENABLE_FIQ_NESTING :=
    flag _ (by decide) (by decide) (by decide) (by decide)
  have k0 : fin .TX_PORT_SPECIFIC_BUILD_OPTIONS = _ := key _ (by decide) (by decide) (by decide)
  have k1 : fin .TX_FIQ_ENABLED = _ := key _ (by decide) (by decide) (by decide)
  have k2 : fin .TX_IRQ_NESTING_ENABLED = _ := key _ (by decide) (by decide) (by decide)
  have k3 : fin .TX_FIQ_NESTING_ENABLED = _ := key _ (by decide) (by decide) (by decide)
  rw [e1, e2, e3, k0, k1, k2, k3]
  cases h1 : isDefined tbl .TX_ENABLE_FIQ_SUPPORT <;>
    cases h2 : isDefined tbl .TX_ENABLE_IRQ_NESTING <;>
    cases h3 : isDefined tbl .TX_ENABLE_FIQ_NESTING <;>
    simp [build_options, process, h1, h2, h3]

/-- The value of `TX_PORT_SPECIFIC_BUILD_OPTIONS` once the header is read,
in terms of the three options in effect. -/
theorem build_options_value (inc : HeaderFile → Table → Table) (cfg : Table)
    (hfirst : isDefined cfg .TX_PORT_H = false) (fuel : Nat) :
    evalConst (process inc tx_port_h cfg) (fuel + 4) (.name .TX_PORT_SPECIFIC_BUILD_OPTIONS) =
      some (((if isDefined (process inc tx_port_h cfg) .TX_ENABLE_FIQ_SUPPORT then 1 else 0) |||
        (if isDefined (process inc tx_port_h cfg) .TX_ENABLE_IRQ_NESTING then 2 else 0)) |||
        (if isDefined (process inc tx_port_h cfg) .TX_ENABLE_FIQ_NESTING then 4 else 0)) := by
  obtain ⟨k0, k1, k2, k3⟩ := build_options_final inc cfg hfirst
  simp only [evalConst, k0, k1, k2, k3, obj, if_true]

/-- A name the header never defines or undefines, and that the user files
leave alone, is defined after the header exactly when it was before. -/
theorem tx_port_h_keeps (inc : HeaderFile → Table → Table) (cfg : Table) (s : Sym)
    (hs : s ∉ tx_port_h.writes) (hinc : ∀ f tbl, inc f tbl s = tbl s) :
    process inc tx_port_h cfg s = cfg s :=
  process_frame inc s tx_port_h hs (fun f _ tbl => hinc f tbl) cfg

/-- The options the header only tests are in effect after it exactly when the
configuration supplied them, as long as the user files leave them alone. -/
theorem tx_port_h_keeps_options (inc : HeaderFile → Table → Table) (cfg : Table) (s : Sym)
    (hs : s ∈ [Sym.TX_ENABLE_STACK_CHECKING, Sym.TX_MISRA_ENABLE, Sym.TX_ENABLE_FIQ_SUPPORT,
      Sym.TX_ENABLE_IRQ_NESTING, Sym.TX_ENABLE_FIQ_NESTING])
    (hinc : ∀ f tbl, inc f tbl s = tbl s) :
    isDefined (process inc tx_port_h cfg) s = isDefined cfg s := by
  have hw : s ∉ tx_port_h.writes := by
    simp only [List.mem_cons, List.mem_singleton, List.not_mem_nil, or_false] at hs
    rcases hs with h | h | h | h | h <;> subst h <;> decide
  unfold isDefined
  rw [tx_port_h_keeps inc cfg s hw hinc]

/-- The core constants read at the end of the header, when the configuration
defines neither and the user files leave them alone. -/
theorem smp_core_constants_final (inc : HeaderFile → Table → Table) (cfg : Table)
    (hfirst : isDefined cfg .TX_PORT_H = false)
    (hcores : isDefined cfg .TX_THREAD_SMP_MAX_CORES = false)
    (hmask : isDefined cfg .TX_THREAD_SMP_CORE_MASK = false)
    (hinc : ∀ f tbl, inc f tbl .TX_THREAD_SMP_MAX_CORES = tbl .TX_THREAD_SMP_MAX_CORES ∧
      inc f tbl .TX_THREAD_SMP_CORE_MASK = tbl .TX_THREAD_SMP_CORE_MASK) :
    process inc tx_port_h cfg .TX_THREAD_SMP_MAX_CORES = some (obj (.num 4)) ∧
      process inc tx_port_h cfg .TX_THREAD_SMP_CORE_MASK = some (obj (.num 0xF)) := by
  have key : ∀ s, (∀ f tbl, inc f tbl s = tbl s) →
      s ∉ port_extensions.writes → s ∉ port_constants.writes → s ∉ include_files.writes →
      s ∉ (smp_initialization.append <| smp_wakeup_logic.append <|
        inline_resume_suspend).writes →
      process inc tx_port_h cfg s =
        process inc smp_core_constants (cfg.set .TX_PORT_H (obj .empty)) s := by
    intro s hs h1 h2 h3 h4
    rw [process_tx_port_h inc cfg hfirst,
      process_frame inc s port_extensions h1 (fun f _ tbl => hs f tbl),
      process_frame inc s port_constants h2 (fun f _ tbl => hs f tbl),
      process_frame inc s include_files h3 (fun f _ tbl => hs f tbl)]
    unfold smp_constants
    rw [process_append, process_frame inc s _ h4 (fun f _ tbl => hs f tbl)]
  rw [key _ (fun f tbl => (hinc f tbl).1) (by decide) (by decide) (by decide) (by decide),
    key _ (fun f tbl => (hinc f tbl).2) (by decide) (by decide) (by decide) (by decide)]
  simp [smp_core_constants, process, hcores, hmask]

theorem Block.append_assoc (a b c : Block) :
    (a.append b).append c = a.append (b.append c) := by
  induction a with
  | done => rfl
  | define s d r ih => simp [Block.append, ih]
  | undef s r ih => simp [Block.append, ih]
  | ifdef s t e r _ _ ih => simp [Block.append, ih]
  | ifndef s t e r _ _ ih => simp [Block.append, ih]
  | include_quoted f r ih => simp [Block.append, ih]
  | include_system f r ih => simp [Block.append, ih]
  | declaration x r ih => simp [Block.append, ih]

/-- The body of the header, split around the wake-up logic. -/
theorem tx_port_h_body_split :
    tx_port_h_body =
      smp_core_constants.append (smp_initialization.append
        (smp_wakeup_logic.append after_wakeup_logic)) := by
  unfold tx_port_h_body smp_constants after_wakeup_logic
  rw [Block.append_assoc, Block.append_assoc, Block.append_assoc]

/-- The two wake-up options are, at line 98, as the configuration has them. -/
theorem atWakeupLogic_options (inc : HeaderFile → Table → Table) (cfg : Table) :
    isDefined (atWakeupLogic inc cfg) .TX_THREAD_SMP_WAKEUP_LOGIC =
        isDefined cfg .TX_THREAD_SMP_WAKEUP_LOGIC ∧
      isDefined (atWakeupLogic inc cfg) .TX_THREAD_SMP_DEFAULT_WAKEUP_LOGIC =
        isDefined cfg .TX_THREAD_SMP_DEFAULT_WAKEUP_LOGIC := by
  unfold atWakeupLogic isDefined
  rw [process_frame inc _ smp_initialization (by decide) (no_quoted inc _ _ (by decide)),
    process_frame inc _ smp_core_constants (by decide) (no_quoted inc _ _ (by decide)),
    process_frame inc _ smp_initialization (by decide) (no_quoted inc _ _ (by decide)),
    process_frame inc _ smp_core_constants (by decide) (no_quoted inc _ _ (by decide))]
  simp

theorem process_tx_port_h_wakeup (inc : HeaderFile → Table → Table) (cfg : Table)
    (hfirst : isDefined cfg .TX_PORT_H = false) :
    process inc tx_port_h cfg =
      process inc after_wakeup_logic (process inc smp_wakeup_logic (atWakeupLogic inc cfg)) := by
  have h : process inc tx_port_h cfg =
      process inc tx_port_h_body (cfg.set .TX_PORT_H (obj .empty)) := by
    show (if isDefined cfg .TX_PORT_H then cfg
      else process inc tx_port_h_body (cfg.set .TX_PORT_H (obj .empty))) = _
    rw [hfirst]
    rfl
  rw [h, tx_port_h_body_split, process_append, process_append, process_append]
  rfl

theorem trace_tx_port_h_wakeup (inc : HeaderFile → Table → Table) (cfg : Table)
    (hfirst : isDefined cfg .TX_PORT_H = false) :
    trace inc tx_port_h cfg =
      .defined .TX_PORT_H (obj .empty) ::
        (trace inc smp_core_constants (cfg.set .TX_PORT_H (obj .empty)) ++
          (trace inc smp_initialization
              (process inc smp_core_constants (cfg.set .TX_PORT_H (obj .empty))) ++
            (trace inc smp_wakeup_logic (atWakeupLogic inc cfg) ++
              trace inc after_wakeup_logic
                (process inc smp_wakeup_logic (atWakeupLogic inc cfg))))) := by
  have h : trace inc tx_port_h cfg =
      .defined .TX_PORT_H (obj .empty) ::
        trace inc tx_port_h_body (cfg.set .TX_PORT_H (obj .empty)) := by
    show (if isDefined cfg .TX_PORT_H then []
      else .defined .TX_PORT_H (obj .empty) ::
        trace inc tx_port_h_body (cfg.set .TX_PORT_H (obj .empty))) ++ [] = _
    rw [hfirst]
    simp
  rw [h, tx_port_h_body_split, trace_append, trace_append, trace_append]
  rfl

/-! ## Lemmas: the protection primitive -/

theorem UINT_RANGE_eq : UINT_RANGE = 4294967296 := by norm_num [UINT_RANGE]

/-- A free protection is acquired. -/
theorem protect_of_free (c : Nat) (k : Kernel)
    (h : k._tx_thread_smp_protection.tx_thread_smp_protect_in_force = 0) :
    _tx_thread_smp_protect c k = some (k.interrupt_posture c,
      { _tx_thread_smp_protection :=
          { k._tx_thread_smp_protection with
            tx_thread_smp_protect_in_force := 1,
            tx_thread_smp_protect_core := c,
            tx_thread_smp_protect_count :=
              (k._tx_thread_smp_protection.tx_thread_smp_protect_count + 1) % UINT_RANGE },
        interrupt_posture := setPosture k.interrupt_posture c TX_INT_DISABLE }) := by
  unfold _tx_thread_smp_protect
  simp only [h, if_true]

/-- The owner acquires again. -/
theorem protect_of_owner (c : Nat) (k : Kernel)
    (h1 : k._tx_thread_smp_protection.tx_thread_smp_protect_in_force ≠ 0)
    (h2 : k._tx_thread_smp_protection.tx_thread_smp_protect_core = c) :
    _tx_thread_smp_protect c k = some (k.interrupt_posture c,
      { _tx_thread_smp_protection :=
          { k._tx_thread_smp_protection with
            tx_thread_smp_protect_count :=
              (k._tx_thread_smp_protection.tx_thread_smp_protect_count + 1) % UINT_RANGE },
        interrupt_posture := setPosture k.interrupt_posture c TX_INT_DISABLE }) := by
  unfold _tx_thread_smp_protect
  simp only [h1, h2, if_true, if_false]

/-- Another core cannot acquire. -/
theorem protect_of_other (c : Nat) (k : Kernel)
    (h1 : k._tx_thread_smp_protection.tx_thread_smp_protect_in_force ≠ 0)
    (h2 : k._tx_thread_smp_protection.tx_thread_smp_protect_core ≠ c) :
    _tx_thread_smp_protect c k = none := by
  unfold _tx_thread_smp_protect
  simp only [h1, h2, if_false]

/-- The release that takes the depth to zero. -/
theorem unprotect_of_last (c token : Nat) (k : Kernel)
    (h : k._tx_thread_smp_protection.tx_thread_smp_protect_count = 1) :
    _tx_thread_smp_unprotect c token k =
      { _tx_thread_smp_protection :=
          { k._tx_thread_smp_protection with
            tx_thread_smp_protect_in_force := 0,
            tx_thread_smp_protect_core := 0,
            tx_thread_smp_protect_count := 0 },
        interrupt_posture := setPosture k.interrupt_posture c token } := by
  have e : (1 + UINT_RANGE - 1) % UINT_RANGE = 0 := by
    rw [UINT_RANGE_eq]
  unfold _tx_thread_smp_unprotect
  simp only [h, e, if_true]

/-- A nested release. -/
theorem unprotect_of_nested (c token n : Nat) (k : Kernel)
    (h : k._tx_thread_smp_protection.tx_thread_smp_protect_count = n + 2)
    (hn : n + 2 < UINT_RANGE) :
    _tx_thread_smp_unprotect c token k =
      { k with
        _tx_thread_smp_protection :=
          { k._tx_thread_smp_protection with tx_thread_smp_protect_count := n + 1 } } := by
  have e : (n + 2 + UINT_RANGE - 1) % UINT_RANGE = n + 1 := by
    rw [UINT_RANGE_eq] at hn ⊢
    omega
  have e0 : ¬ (n + 1 = 0) := by omega
  unfold _tx_thread_smp_unprotect
  simp only [h, e, e0, if_false]

/-- The owner of a held protection acquires again, one level deeper. -/
theorem protect_heldBy (k : Kernel) (c n : Nat) (h : heldBy k c n)
    (hn : n + 1 < UINT_RANGE) :
    ∃ k2, _tx_thread_smp_protect c k = some (k.interrupt_posture c, k2) ∧
      heldBy k2 c (n + 1) := by
  obtain ⟨h1, h2, h3⟩ := h
  have hf : k._tx_thread_smp_protection.tx_thread_smp_protect_in_force ≠ 0 := by
    rw [h1]; decide
  refine ⟨_, protect_of_owner c k hf h2, h1, h2, ?_⟩
  show (k._tx_thread_smp_protection.tx_thread_smp_protect_count + 1) % UINT_RANGE = n + 1
  rw [h3]
  exact Nat.mod_eq_of_lt hn

/-- While one core holds the protection no other core can acquire it. -/
theorem protect_other_heldBy (k : Kernel) (c n other : Nat) (h : heldBy k c n)
    (hne : other ≠ c) : _tx_thread_smp_protect other k = none := by
  obtain ⟨h1, h2, _⟩ := h
  apply protect_of_other
  · rw [h1]; decide
  · rw [h2]; exact fun e => hne e.symm

/-- A nested release keeps the protection with its owner, one level up. -/
theorem unprotect_heldBy_nested (k : Kernel) (c n token : Nat) (h : heldBy k c (n + 2))
    (hn : n + 2 < UINT_RANGE) : heldBy (_tx_thread_smp_unprotect c token k) c (n + 1) := by
  obtain ⟨h1, h2, h3⟩ := h
  rw [unprotect_of_nested c token n k h3 hn]
  exact ⟨h1, h2, rfl⟩

/-- The last release leaves the protection free and restores the posture. -/
theorem unprotect_heldBy_last (k : Kernel) (c token : Nat) (h : heldBy k c 1) :
    unprotected (_tx_thread_smp_unprotect c token k) ∧
      (_tx_thread_smp_unprotect c token k).interrupt_posture c = token := by
  obtain ⟨_, _, h3⟩ := h
  rw [unprotect_of_last c token k h3]
  exact ⟨⟨rfl, rfl⟩, by simp [setPosture]⟩

/-- A held protection is not the unprotected state. -/
theorem heldBy_not_unprotected (k : Kernel) (c n : Nat) (h : heldBy k c n) :
    ¬ unprotected k := by
  intro hu
  have h1 := h.1
  rw [hu.1] at h1
  cases h1

theorem Cores.consistent_step (s s1 : Cores) (a : Action) (h : s.consistent)
    (hstep : s.step a = some s1) : s1.consistent := by
  cases a with
  | protect core =>
    simp only [Cores.step] at hstep
    split at hstep
    next hroom =>
      rcases h with ⟨hfree, hnone⟩ | ⟨owner, hheld, hpos, hlt, hothers⟩
      · rw [protect_of_free core s.kernel hfree.1] at hstep
        simp only [Option.some.injEq] at hstep
        subst hstep
        refine Or.inr ⟨core, ?_, ?_, ?_, ?_⟩
        · refine ⟨rfl, rfl, ?_⟩
          show (s.kernel._tx_thread_smp_protection.tx_thread_smp_protect_count + 1) %
            UINT_RANGE = _
          rw [hfree.2]
          simp only [if_true, hnone core]
          rw [UINT_RANGE_eq]
        · simp
        · simp only [if_true, hnone core]
          rw [UINT_RANGE_eq]
          decide
        · intro c hc
          simp [hc, hnone c]
      · by_cases hco : core = owner
        · subst hco
          obtain ⟨k2, e2, b2⟩ := protect_heldBy s.kernel core _ hheld hroom
          rw [e2] at hstep
          simp only [Option.some.injEq] at hstep
          subst hstep
          refine Or.inr ⟨core, ?_, ?_, ?_, ?_⟩
          · simpa using b2
          · simp
          · simpa using hroom
          · intro c hc
            simp [hc, hothers c hc]
        · rw [protect_other_heldBy s.kernel owner _ core hheld hco] at hstep
          simp only [Option.some.injEq] at hstep
          subst hstep
          exact Or.inr ⟨owner, hheld, hpos, hlt, hothers⟩
    next => cases hstep
  | unprotect core token =>
    simp only [Cores.step] at hstep
    split at hstep
    next hin =>
      simp only [Option.some.injEq] at hstep
      subst hstep
      rcases h with ⟨_, hnone⟩ | ⟨owner, hheld, hpos, hlt, hothers⟩
      · rw [hnone core] at hin
        cases hin
      · have hco : core = owner := by
          by_contra hne
          rw [hothers core hne] at hin
          cases hin
        subst hco
        obtain ⟨n, hn⟩ : ∃ n, s.inside core = n + 1 := ⟨s.inside core - 1, by omega⟩
        rw [hn] at hheld hlt
        cases n with
        | zero =>
          have hheld1 : heldBy s.kernel core 1 := hheld
          have hlast := (unprotect_heldBy_last s.kernel core token hheld1).1
          refine Or.inl ⟨?_, ?_⟩
          · dsimp only
            exact hlast
          intro c
          by_cases hc : c = core
          · simp [hc, hn]
          · simp [hc, hothers c hc]
        | succ m =>
          refine Or.inr ⟨core, ?_, ?_, ?_, ?_⟩
          · have hnest := unprotect_heldBy_nested s.kernel core m token hheld hlt
            dsimp only
            rw [if_pos rfl, hn]
            exact hnest
          · simp [hn]
          · simp only [if_true, hn]
            omega
          · intro c hc
            simp [hc, hothers c hc]
    next => cases hstep

theorem Cores.consistent_run (acts : List Action) :
    ∀ s s1 : Cores, s.consistent → s.run acts = some s1 → s1.consistent := by
  induction acts with
  | nil =>
    intro s s1 h hrun
    simp only [Cores.run, Option.some.injEq] at hrun
    subst hrun
    exact h
  | cons a rest ih =>
    intro s s1 h hrun
    simp only [Cores.run] at hrun
    split at hrun
    next s2 hs2 => exact ih s2 s1 (Cores.consistent_step s s2 a h hs2) hrun
    next => cases hrun

/-! ## Timeout hand-off -/

/-- C1: after `TX_THREAD_CREATE_TIMEOUT_SETUP(t)` has run on a thread at
address `t`, if the expired timer `_tx_timer_expired_timer_ptr` is the
thread's own internal timer `&t->tx_thread_timer`, then the value
`TX_THREAD_TIMEOUT_POINTER_SETUP` assigns to its argument is `t`: the
back-reference stored at creation recovers the owning thread. -/
theorem timeout_back_reference_round_trip (L : Layout) (_tx_thread_timeout : Nat)
    (mem : Memory) (t _tx_timer_expired_timer_ptr : Nat) (ht : t < POINTER_RANGE)
    (hown : _tx_timer_expired_timer_ptr = t + L.tx_thread_timer) :
    TX_THREAD_TIMEOUT_POINTER_SETUP L
      (TX_THREAD_CREATE_TIMEOUT_SETUP L _tx_thread_timeout mem t)
      _tx_timer_expired_timer_ptr = t := by
  subst hown
  simp only [TX_THREAD_TIMEOUT_POINTER_SETUP, TX_THREAD_CREATE_TIMEOUT_SETUP]
  rw [loadPtr_storePtr]
  exact Nat.mod_eq_of_lt ht

/-- A thread at address `0x4000` whose timer sits at offset 16, with the
three timer members at offsets 0, 8 and 40. -/
theorem timeout_back_reference_round_trip_witness :
    TX_THREAD_TIMEOUT_POINTER_SETUP ⟨16, 0, 8, 40⟩
      (TX_THREAD_CREATE_TIMEOUT_SETUP ⟨16, 0, 8, 40⟩ 0x80001000 (fun _ => 0) 0x4000)
      (0x4000 + 16) = 0x4000 :=
  timeout_back_reference_round_trip ⟨16, 0, 8, 40⟩ 0x80001000 (fun _ => 0) 0x4000
    (0x4000 + 16) (by norm_num [POINTER_RANGE]) rfl

/-! ## Lowest set bit -/

/-- C9: with the default configuration (neither `TX_THREAD_SMP_MAX_CORES` nor
`TX_THREAD_SMP_CORE_MASK` supplied by the build, and no user file redefining
them), the header leaves `TX_THREAD_SMP_MAX_CORES = 4` and
`TX_THREAD_SMP_CORE_MASK = 0xF = 2^4 - 1`, and for every bit position `i` of
a 32-bit word, bit `i` of the mask is set if and only if `i` is below the
core count. -/
theorem core_mask_matches_core_count (inc : HeaderFile → Table → Table) (cfg : Table)
    (fuel : Nat) (hfirst : isDefined cfg .TX_PORT_H = false)
    (hcores : isDefined cfg .TX_THREAD_SMP_MAX_CORES = false)
    (hmask : isDefined cfg .TX_THREAD_SMP_CORE_MASK = false)
    (hinc : ∀ f tbl, inc f tbl .TX_THREAD_SMP_MAX_CORES = tbl .TX_THREAD_SMP_MAX_CORES ∧
      inc f tbl .TX_THREAD_SMP_CORE_MASK = tbl .TX_THREAD_SMP_CORE_MASK) :
    ∃ cores mask,
      evalConst (process inc tx_port_h cfg) (fuel + 1) (.name .TX_THREAD_SMP_MAX_CORES) =
          some cores ∧
        evalConst (process inc tx_port_h cfg) (fuel + 1) (.name .TX_THREAD_SMP_CORE_MASK) =
          some mask ∧
        cores = 4 ∧ mask = 0xF ∧ mask = 2 ^ cores - 1 ∧
        ∀ i, i < 32 → (mask.testBit i = true ↔ i < cores) := by
  obtain ⟨k1, k2⟩ := smp_core_constants_final inc cfg hfirst hcores hmask hinc
  refine ⟨4, 0xF, ?_, ?_, rfl, rfl, by decide, by decide⟩
  · simp only [evalConst, k1, obj, if_true]
  · simp only [evalConst, k2, obj, if_true]

/-- The configuration that defines nothing, with user files that define nothing. -/
theorem core_mask_matches_core_count_witness :
    ∃ cores mask,
      evalConst (process (fun _ tbl => tbl) tx_port_h Table.empty) 1
          (.name .TX_THREAD_SMP_MAX_CORES) = some cores ∧
        evalConst (process (fun _ tbl => tbl) tx_port_h Table.empty) 1
          (.name .TX_THREAD_SMP_CORE_MASK) = some mask ∧
        cores = 4 ∧ mask = 0xF ∧ mask = 2 ^ cores - 1 ∧
        ∀ i, i < 32 → (mask.testBit i = true ↔ i < cores) :=
  core_mask_matches_core_count (fun _ tbl => tbl) Table.empty 0 rfl rfl rfl
    (fun _ _ => ⟨rfl, rfl⟩)

/-! ## Build options -/

/-- C10: for every combination of `TX_ENABLE_FIQ_SUPPORT`,
`TX_ENABLE_IRQ_NESTING` and `TX_ENABLE_FIQ_NESTING` in effect,
`TX_PORT_SPECIFIC_BUILD_OPTIONS` evaluates to a value that is at most 7, has
bit 0 set iff FIQ support is enabled, bit 1 set iff IRQ nesting is enabled
and bit 2 set iff FIQ nesting is enabled; hence a second configuration gives
the same value only if it enables the same three options. -/
theorem build_options_encoding_lossless (inc : HeaderFile → Table → Table) (cfg : Table)
    (fuel : Nat) (hfirst : isDefined cfg .TX_PORT_H = false) :
    ∃ v, evalConst (process inc tx_port_h cfg) (fuel + 4)
          (.name .TX_PORT_SPECIFIC_BUILD_OPTIONS) = some v ∧
      v ≤ 7 ∧
      v.testBit 0 = isDefined (process inc tx_port_h cfg) .TX_ENABLE_FIQ_SUPPORT ∧
      v.testBit 1 = isDefined (process inc tx_port_h cfg) .TX_ENABLE_IRQ_NESTING ∧
      v.testBit 2 = isDefined (process inc tx_port_h cfg) .TX_ENABLE_FIQ_NESTING ∧
      ∀ (inc2 : HeaderFile → Table → Table) (cfg2 : Table),
        isDefined cfg2 .TX_PORT_H = false →
        evalConst (process inc2 tx_port_h cfg2) (fuel + 4)
          (.name .TX_PORT_SPECIFIC_BUILD_OPTIONS) = some v →
        isDefined (process inc2 tx_port_h cfg2) .TX_ENABLE_FIQ_SUPPORT =
            isDefined (process inc tx_port_h cfg) .TX_ENABLE_FIQ_SUPPORT ∧
          isDefined (process inc2 tx_port_h cfg2) .TX_ENABLE_IRQ_NESTING =
            isDefined (process inc tx_port_h cfg) .TX_ENABLE_IRQ_NESTING ∧
          isDefined (process inc2 tx_port_h cfg2) .TX_ENABLE_FIQ_NESTING =
            isDefined (process inc tx_port_h cfg) .TX_ENABLE_FIQ_NESTING := by
  refine ⟨_, build_options_value inc cfg hfirst fuel, ?_, ?_, ?_, ?_, ?_⟩
  · cases isDefined (process inc tx_port_h cfg) .TX_ENABLE_FIQ_SUPPORT <;>
      cases isDefined (process inc tx_port_h cfg) .TX_ENABLE_IRQ_NESTING <;>
      cases isDefined (process inc tx_port_h cfg) .TX_ENABLE_FIQ_NESTING <;> decide
  · cases isDefined (process inc tx_port_h cfg) .TX_ENABLE_FIQ_SUPPORT <;>
      cases isDefined (process inc tx_port_h cfg) .TX_ENABLE_IRQ_NESTING <;>
      cases isDefined (process inc tx_port_h cfg) .TX_ENABLE_FIQ_NESTING <;> decide
  · cases isDefined (process inc tx_port_h cfg) .TX_ENABLE_FIQ_SUPPORT <;>
      cases isDefined (process inc tx_port_h cfg) .TX_ENABLE_IRQ_NESTING <;>
      cases isDefined (process inc tx_port_h cfg) .TX_ENABLE_FIQ_NESTING <;> decide
  · cases isDefined (process inc tx_port_h cfg) .TX_ENABLE_FIQ_SUPPORT <;>
      cases isDefined (process inc tx_port_h cfg) .TX_ENABLE_IRQ_NESTING <;>
      cases isDefined (process inc tx_port_h cfg) .TX_ENABLE_FIQ_NESTING <;> decide
  · intro inc2 cfg2 hfirst2 hv
    rw [build_options_value inc2 cfg2 hfirst2 fuel] at hv
    have hv2 := Option.some.inj hv
    revert hv2
    cases isDefined (process inc tx_port_h cfg) .TX_ENABLE_FIQ_SUPPORT <;>
      cases isDefined (process inc tx_port_h cfg) .TX_ENABLE_IRQ_NESTING <;>
      cases isDefined (process inc tx_port_h cfg) .TX_ENABLE_FIQ_NESTING <;>
      cases isDefined (process inc2 tx_port_h cfg2) .TX_ENABLE_FIQ_SUPPORT <;>
      cases isDefined (process inc2 tx_port_h cfg2) .TX_ENABLE_IRQ_NESTING <;>
      cases isDefined (process inc2 tx_port_h cfg2) .TX_ENABLE_FIQ_NESTING <;> decide

/-- An enabled IRQ nesting and FIQ support give the value 3. -/
theorem build_options_encoding_lossless_witness :
    isDefined ((Table.empty.set .TX_ENABLE_FIQ_SUPPORT (obj .empty)).set
        .TX_ENABLE_IRQ_NESTING (obj .empty)) .TX_PORT_H = false ∧
      ∃ v, evalConst (process (fun _ tbl => tbl) tx_port_h
            ((Table.empty.set .TX_ENABLE_FIQ_SUPPORT (obj .empty)).set
              .TX_ENABLE_IRQ_NESTING (obj .empty))) 4
            (.name .TX_PORT_SPECIFIC_BUILD_OPTIONS) = some v ∧ v ≤ 7 :=
  ⟨rfl,
    (build_options_encoding_lossless (fun _ tbl => tbl)
      ((Table.empty.set .TX_ENABLE_FIQ_SUPPORT (obj .empty)).set
        .TX_ENABLE_IRQ_NESTING (obj .empty)) 0 rfl).imp (fun _ h => ⟨h.1, h.2.1⟩)⟩

/-! ## Stack checking and stack filling -/

/-- C5: when the default wake-up logic is selected (the build defines
`TX_THREAD_SMP_DEFAULT_WAKEUP_LOGIC`, supplies no customer-specific
`TX_THREAD_SMP_WAKEUP_LOGIC`, and no user file redefines the wake-up), then
for every core index `i` the invocation `TX_THREAD_SMP_WAKEUP(i)` expands to
the single call `_tx_thread_smp_core_preempt(i)`: the function is called
exactly once, with argument `i` and with no other core index. -/
theorem default_wakeup_directed (inc : HeaderFile → Table → Table) (cfg : Table) (i : Nat)
    (hfirst : isDefined cfg .TX_PORT_H = false)
    (hcustom : isDefined cfg .TX_THREAD_SMP_WAKEUP_LOGIC = false)
    (hdefault : isDefined cfg .TX_THREAD_SMP_DEFAULT_WAKEUP_LOGIC = true)
    (hinc : ∀ f tbl, inc f tbl .TX_THREAD_SMP_WAKEUP = tbl .TX_THREAD_SMP_WAKEUP) :
    expand (process inc tx_port_h cfg) .TX_THREAD_SMP_WAKEUP [.num i] =
        some (.call1 "_tx_thread_smp_core_preempt" (.num i)) ∧
      (expand (process inc tx_port_h cfg) .TX_THREAD_SMP_WAKEUP [.num i]).map calls =
        some [("_tx_thread_smp_core_preempt", some (.num i))] := by
  obtain ⟨h1, h2⟩ := atWakeupLogic_options inc cfg
  rw [hcustom] at h1
  rw [hdefault] at h2
  have hfin : process inc tx_port_h cfg .TX_THREAD_SMP_WAKEUP = some default_wakeup := by
    rw [process_tx_port_h_wakeup inc cfg hfirst,
      process_frame inc _ after_wakeup_logic (by decide) (fun f _ tbl => hinc f tbl)]
    simp [smp_wakeup_logic, process, h1, h2]
  have hexp : expand (process inc tx_port_h cfg) .TX_THREAD_SMP_WAKEUP [.num i] =
      some (.call1 "_tx_thread_smp_core_preempt" (.num i)) := by
    simp [expand, hfin, default_wakeup, fnlike, subst]
  exact ⟨hexp, by rw [hexp]; rfl⟩

/-- The default logic selected on the command line, waking core 2. -/
theorem default_wakeup_directed_witness :
    (expand (process (fun _ tbl => tbl) tx_port_h
        (Table.empty.set .TX_THREAD_SMP_DEFAULT_WAKEUP_LOGIC (obj .empty)))
        .TX_THREAD_SMP_WAKEUP [.num 2]).map calls =
      some [("_tx_thread_smp_core_preempt", some (.num 2))] :=
  (default_wakeup_directed (fun _ tbl => tbl)
    (Table.empty.set .TX_THREAD_SMP_DEFAULT_WAKEUP_LOGIC (obj .empty)) 2 rfl rfl rfl
    (fun _ _ => rfl)).2

/-- C6, as stated, fails: in the configuration that defines nothing the header
neither includes `tx_thread_smp_core_wakeup.h` nor defines
`TX_THREAD_SMP_WAKEUP`; the wake-up is bound to no mechanism (the default
definition sits under `#ifdef TX_THREAD_SMP_DEFAULT_WAKEUP_LOGIC`). -/
theorem wakeup_unbound_without_options :
    isDefined Table.empty .TX_THREAD_SMP_WAKEUP_LOGIC = false ∧
      Event.included .tx_thread_smp_core_wakeup_h ∉
        trace (fun _ tbl => tbl) tx_port_h Table.empty ∧
      Event.defined .TX_THREAD_SMP_WAKEUP default_wakeup ∉
        trace (fun _ tbl => tbl) tx_port_h Table.empty ∧
      isDefined (process (fun _ tbl => tbl) tx_port_h Table.empty)
        .TX_THREAD_SMP_WAKEUP = false := by
  decide

/-- C6, amended: on the first inclusion of the header, for every build
configuration, the header includes the custom mechanism
`tx_thread_smp_core_wakeup.h` exactly when `TX_THREAD_SMP_WAKEUP_LOGIC` is
configured; it defines the default `TX_THREAD_SMP_WAKEUP(i) =
_tx_thread_smp_core_preempt(i)` exactly when `TX_THREAD_SMP_WAKEUP_LOGIC` is
not configured and `TX_THREAD_SMP_DEFAULT_WAKEUP_LOGIC` is; any definition it
gives `TX_THREAD_SMP_WAKEUP` is the default one; and the custom and the
default binding are never both in effect. -/
theorem wakeup_substitution (inc : HeaderFile → Table → Table) (cfg : Table)
    (hfirst : isDefined cfg .TX_PORT_H = false) :
    (Event.included .tx_thread_smp_core_wakeup_h ∈ trace inc tx_port_h cfg ↔
        isDefined cfg .TX_THREAD_SMP_WAKEUP_LOGIC = true) ∧
      (Event.defined .TX_THREAD_SMP_WAKEUP default_wakeup ∈ trace inc tx_port_h cfg ↔
        isDefined cfg .TX_THREAD_SMP_WAKEUP_LOGIC = false ∧
          isDefined cfg .TX_THREAD_SMP_DEFAULT_WAKEUP_LOGIC = true) ∧
      (∀ d, Event.defined .TX_THREAD_SMP_WAKEUP d ∈ trace inc tx_port_h cfg →
        d = default_wakeup) ∧
      ¬ (Event.included .tx_thread_smp_core_wakeup_h ∈ trace inc tx_port_h cfg ∧
        Event.defined .TX_THREAD_SMP_WAKEUP default_wakeup ∈ trace inc tx_port_h cfg) := by
  obtain ⟨h1, h2⟩ := atWakeupLogic_options inc cfg
  have hinc : ∀ b tbl, HeaderFile.tx_thread_smp_core_wakeup_h ∉ b.includes →
      Event.included .tx_thread_smp_core_wakeup_h ∉ trace inc b tbl :=
    fun b tbl hb hmem => hb (trace_included_includes inc _ b tbl hmem)
  have hdef : ∀ d b tbl, Sym.TX_THREAD_SMP_WAKEUP ∉ b.writes →
      Event.defined .TX_THREAD_SMP_WAKEUP d ∉ trace inc b tbl :=
    fun d b tbl hb hmem => hb (trace_defined_writes inc _ d b tbl hmem)
  have hI : Event.included .tx_thread_smp_core_wakeup_h ∈ trace inc tx_port_h cfg ↔
      isDefined cfg .TX_THREAD_SMP_WAKEUP_LOGIC = true := by
    rw [trace_tx_port_h_wakeup inc cfg hfirst]
    simp only [List.mem_cons, List.mem_append, hinc _ _ (by decide : _ ∉ smp_core_constants.includes),
      hinc _ _ (by decide : _ ∉ smp_initialization.includes),
      hinc _ _ (by decide : _ ∉ after_wakeup_logic.includes), false_or, or_false]
    rw [← h1]
    cases hc : isDefined (atWakeupLogic inc cfg) .TX_THREAD_SMP_WAKEUP_LOGIC <;>
      cases hd : isDefined (atWakeupLogic inc cfg) .TX_THREAD_SMP_DEFAULT_WAKEUP_LOGIC <;>
      simp [smp_wakeup_logic, trace, process, hc, hd]
  have hD : ∀ d, Event.defined .TX_THREAD_SMP_WAKEUP d ∈ trace inc tx_port_h cfg ↔
      d = default_wakeup ∧ isDefined cfg .TX_THREAD_SMP_WAKEUP_LOGIC = false ∧
        isDefined cfg .TX_THREAD_SMP_DEFAULT_WAKEUP_LOGIC = true := by
    intro d
    rw [trace_tx_port_h_wakeup inc cfg hfirst]
    simp only [List.mem_cons, List.mem_append, hdef d _ _ (by decide : _ ∉ smp_core_constants.writes),
      hdef d _ _ (by decide : _ ∉ smp_initialization.writes),
      hdef d _ _ (by decide : _ ∉ after_wakeup_logic.writes), false_or, or_false]
    rw [← h1, ← h2]
    cases hc : isDefined (atWakeupLogic inc cfg) .TX_THREAD_SMP_WAKEUP_LOGIC <;>
      cases hd : isDefined (atWakeupLogic inc cfg) .TX_THREAD_SMP_DEFAULT_WAKEUP_LOGIC <;>
      simp [smp_wakeup_logic, trace, process, hc, hd]
  refine ⟨hI, ?_, ?_, ?_⟩
  · rw [hD]
    simp
  · intro d hd
    exact ((hD d).1 hd).1
  · rw [hI, hD]
    rintro ⟨ha, _, hb, _⟩
    rw [ha] at hb
    cases hb

/-- The default logic selected on the command line: the header defines the
default wake-up and does not include the custom file. -/
theorem wakeup_substitution_witness :
    Event.defined .TX_THREAD_SMP_WAKEUP default_wakeup ∈
        trace (fun _ tbl => tbl) tx_port_h
          (Table.empty.set .TX_THREAD_SMP_DEFAULT_WAKEUP_LOGIC (obj .empty)) ∧
      Event.included .tx_thread_smp_core_wakeup_h ∉
        trace (fun _ tbl => tbl) tx_port_h
          (Table.empty.set .TX_THREAD_SMP_DEFAULT_WAKEUP_LOGIC (obj .empty)) :=
  have h := wakeup_substitution (fun _ tbl => tbl)
    (Table.empty.set .TX_THREAD_SMP_DEFAULT_WAKEUP_LOGIC (obj .empty)) rfl
  ⟨h.2.1.2 ⟨rfl, rfl⟩, fun hmem => Bool.noConfusion (h.1.1 hmem)⟩

/-! ## Lockout macros -/

/-- C3: for every core `c` starting from the unprotected state, the sequence
`protect(); protect(); unprotect(); unprotect()` on `c` runs through: both
`protect()` calls return, the protection is held by `c` with depth 1 and then
2, it is still held by `c` with depth 1 after the first `unprotect()`, and it
is unprotected (not in force, count 0) after the second; none of the three
states in between is unprotected, and in each of them a `protect()` attempt
of any other core cannot acquire. -/
theorem protect_reentrancy (k : Kernel) (c : Nat) (hstart : unprotected k) :
    ∃ t1 k1 t2 k2,
      _tx_thread_smp_protect c k = some (t1, k1) ∧ heldBy k1 c 1 ∧
      _tx_thread_smp_protect c k1 = some (t2, k2) ∧ heldBy k2 c 2 ∧
      heldBy (_tx_thread_smp_unprotect c t2 k2) c 1 ∧
      unprotected (_tx_thread_smp_unprotect c t1 (_tx_thread_smp_unprotect c t2 k2)) ∧
      ¬ unprotected k1 ∧ ¬ unprotected k2 ∧
      ¬ unprotected (_tx_thread_smp_unprotect c t2 k2) ∧
      ∀ other, other ≠ c →
        _tx_thread_smp_protect other k1 = none ∧
        _tx_thread_smp_protect other k2 = none ∧
        _tx_thread_smp_protect other (_tx_thread_smp_unprotect c t2 k2) = none := by
  obtain ⟨h1, h2⟩ := hstart
  have one : (0 + 1) % UINT_RANGE = 1 := by rw [UINT_RANGE_eq]
  have small : 0 + 2 < UINT_RANGE := by rw [UINT_RANGE_eq]; decide
  have e1 := protect_of_free c k h1
  rw [h2, one] at e1
  have b1 : heldBy
      { _tx_thread_smp_protection :=
          { k._tx_thread_smp_protection with
            tx_thread_smp_protect_in_force := 1,
            tx_thread_smp_protect_core := c,
            tx_thread_smp_protect_count := 1 },
        interrupt_posture := setPosture k.interrupt_posture c TX_INT_DISABLE } c 1 :=
    ⟨rfl, rfl, rfl⟩
  obtain ⟨k2, e2, b2⟩ := protect_heldBy _ c 1 b1 small
  refine ⟨_, _, _, k2, e1, b1, e2, b2, ?_, ?_, heldBy_not_unprotected _ _ _ b1,
    heldBy_not_unprotected _ _ _ b2, ?_, ?_⟩
  · exact unprotect_heldBy_nested k2 c 0 _ b2 small
  · exact (unprotect_heldBy_last _ c _ (unprotect_heldBy_nested k2 c 0 _ b2 small)).1
  · exact heldBy_not_unprotected _ _ _ (unprotect_heldBy_nested k2 c 0 _ b2 small)
  · intro other hne
    exact ⟨protect_other_heldBy _ c 1 other b1 hne, protect_other_heldBy _ c 2 other b2 hne,
      protect_other_heldBy _ c 1 other (unprotect_heldBy_nested k2 c 0 _ b2 small) hne⟩

/-- Core 1 nests two acquisitions from the initial kernel. -/
theorem protect_reentrancy_witness :
    unprotected Kernel.initial ∧
      ∃ t1 k1 t2 k2,
        _tx_thread_smp_protect 1 Kernel.initial = some (t1, k1) ∧ heldBy k1 1 1 ∧
        _tx_thread_smp_protect 1 k1 = some (t2, k2) ∧ heldBy k2 1 2 ∧
        heldBy (_tx_thread_smp_unprotect 1 t2 k2) 1 1 ∧
        unprotected (_tx_thread_smp_unprotect 1 t1 (_tx_thread_smp_unprotect 1 t2 k2)) :=
  ⟨⟨rfl, rfl⟩,
    (protect_reentrancy Kernel.initial 1 ⟨rfl, rfl⟩).imp fun _ h1 =>
      h1.imp fun _ h2 => h2.imp fun _ h3 => h3.imp fun _ h =>
        ⟨h.1, h.2.1, h.2.2.1, h.2.2.2.1, h.2.2.2.2.1, h.2.2.2.2.2.1⟩⟩

/-! ## Mutual exclusion -/

/-- C2: in every interleaving of `protect()` and `unprotect()` calls of the
cores that starts from the unprotected state, at every instant at most one
core is inside the critical section: two cores that are both inside are the
same core, the protection structure is in force with that core as its owner
and the core's nesting as its count, and a `protect()` attempt of any other
core cannot acquire. -/
theorem protect_mutual_exclusion (k : Kernel) (acts : List Action) (s : Cores)
    (c1 c2 : Nat) (hstart : unprotected k) (hrun : (Cores.start k).run acts = some s)
    (h1 : 0 < s.inside c1) (h2 : 0 < s.inside c2) :
    c1 = c2 ∧ heldBy s.kernel c1 (s.inside c1) ∧
      ∀ other, other ≠ c1 → _tx_thread_smp_protect other s.kernel = none := by
  have h0 : (Cores.start k).consistent := Or.inl ⟨hstart, fun _ => rfl⟩
  rcases Cores.consistent_run acts _ s h0 hrun with ⟨_, hnone⟩ | ⟨owner, hheld, _, _, hothers⟩
  · rw [hnone c1] at h1
    cases h1
  · have e1 : c1 = owner := by
      by_contra hne
      rw [hothers c1 hne] at h1
      cases h1
    have e2 : c2 = owner := by
      by_contra hne
      rw [hothers c2 hne] at h2
      cases h2
    subst e1
    exact ⟨e2.symm, hheld, fun other hne => protect_other_heldBy s.kernel c1 _ other hheld hne⟩

/-- The interleaving in which core 0 acquires, core 1 attempts, and core 0
acquires again runs through. -/
theorem nested_interleaving_runs :
    ((Cores.start Kernel.initial).run [.protect 0, .protect 1, .protect 0]).isSome = true := by
  decide

/-- Core 0 acquires, core 1 attempts and spins, core 0 acquires again: core 0
is inside with depth 2 and core 1 cannot acquire. -/
theorem protect_mutual_exclusion_witness :
    ∃ s, (Cores.start Kernel.initial).run [.protect 0, .protect 1, .protect 0] = some s ∧
      0 < s.inside 0 ∧ s.inside 1 = 0 ∧ heldBy s.kernel 0 2 ∧
      _tx_thread_smp_protect 1 s.kernel = none :=
  have h := protect_mutual_exclusion Kernel.initial [.protect 0, .protect 1, .protect 0]
    (Option.get _ nested_interleaving_runs) 0 0 ⟨rfl, rfl⟩
    (Option.some_get nested_interleaving_runs).symm (by decide) (by decide)
  ⟨_, (Option.some_get nested_interleaving_runs).symm, by decide, by decide, h.2.1,
    h.2.2 1 (by decide)⟩

end TxPort







